import Mathlib

/-!
Verification of the lispy evaluator (src/main.c): value model, environment
chain, builtins and the evaluator, shallowly embedded as pure Lean functions.

Modelling conventions:
* `lval` mirrors the C tagged union `struct lval`; the six type tags become
  constructors.  Builtin functions are identified by the `Builtin` enum
  (the C stores a function pointer); a closure stores its own environment
  frame, its formal list (the cells of the C `formals` q-expression) and its
  body (the body q-expression value).
* The C environment `struct lenv` is a frame of bindings plus a parent
  pointer.  The dynamic chain of environments is embedded as a
  `List Frame`; the head is the innermost frame and the last element is the
  global (parentless) frame.  In-place mutation of environments becomes
  explicit state passing: the evaluator takes a chain and returns the
  updated chain next to the produced value.
* Machine `long` becomes `Int`; C division on `long` truncates toward zero,
  which is `Int.tdiv`.
* The mutually recursive C evaluation functions are embedded with a fuel
  parameter consumed at each `lval_eval` entry; `none` means the fuel ran
  out (the C code would simply recurse further).
* Deep copies (`lval_copy`, used by `lenv_get` and `lenv_put` in the C) are
  kept explicit and proved to be the identity on the pure value tree.
-/

/-- Identity of a native builtin function (the C code stores an `lbuiltin`
function pointer; the registry in `lenv_add_builtins` fixes this set). -/
inductive Builtin where
  | bDef | bSet | bFun | bList | bHead | bTail | bEval | bJoin
  | bAdd | bSub | bMul | bDiv
deriving DecidableEq

/-- Runtime value, mirroring `struct lval`.  `lambda` carries the closure's
own environment frame (the C `env`, whose parent is NULL whenever a closure
value is stored), the formal parameters (cells of the C `formals`) and the
body q-expression. -/
inductive lval where
  | err (msg : String)
  | num (n : Int)
  | sym (s : String)
  | builtin (b : Builtin)
  | lambda (fenv : List (String × lval)) (formals : List lval) (body : lval)
  | sexpr (cells : List lval)
  | qexpr (cells : List lval)

/-- One environment frame: the `syms`/`vals` arrays of `struct lenv`. -/
abbrev Frame := List (String × lval)

/-- A chain of environment frames, innermost first; the last frame is the
global frame (the C walks `parent` pointers to reach it). -/
abbrev Chain := List Frame

/-- Type tags, mirroring the C enum `LVAL_ERR .. LVAL_QEXPR`. -/
inductive LType where
  | lerr | lnum | lsym | lfun | lsexpr | lqexpr
deriving DecidableEq

/-- Tag of a value (the C `v->type` field). -/
def lval.ltype : lval → LType
  | .err _ => .lerr
  | .num _ => .lnum
  | .sym _ => .lsym
  | .builtin _ => .lfun
  | .lambda _ _ _ => .lfun
  | .sexpr _ => .lsexpr
  | .qexpr _ => .lqexpr

/-- Printable name of a type tag, mirroring `ltype2name`. -/
def ltype2name : LType → String
  | .lfun => "Function"
  | .lnum => "Number"
  | .lerr => "Error"
  | .lsym => "Symbol"
  | .lsexpr => "S-Expression"
  | .lqexpr => "Q-Expression"

/-- Test for the Error tag (`v->type == LVAL_ERR`). -/
def lval.isErr : lval → Bool
  | .err _ => true
  | _ => false

/-- Test for the Number tag (`v->type == LVAL_NUM`). -/
def lval.isNum : lval → Bool
  | .num _ => true
  | _ => false

/-- Test for the Symbol tag (`v->type == LVAL_SYM`). -/
def lval.isSym : lval → Bool
  | .sym _ => true
  | _ => false

/-- Test for the Q-Expression tag (`v->type == LVAL_QEXPR`). -/
def lval.isQexpr : lval → Bool
  | .qexpr _ => true
  | _ => false

/-- Name of a Symbol value (the C reads `k->sym`, valid only on symbols). -/
def lval.symName : lval → String
  | .sym s => s
  | _ => ""

/-- Cells of a Q-Expression value (the C reads `v->cell`). -/
def lval.qcells : lval → List lval
  | .qexpr cells => cells
  | _ => []

mutual

/-- Deep copy, mirroring `lval_copy`: numbers, builtins and strings are
copied by value, closures copy their environment, formals and body, and
both expression forms copy every child. -/
def lval_copy : lval → lval
  | .num n => .num n
  | .builtin b => .builtin b
  | .lambda fenv formals body =>
      .lambda (frame_copy fenv) (lval_copy_list formals) (lval_copy body)
  | .err m => .err m
  | .sym s => .sym s
  | .sexpr cells => .sexpr (lval_copy_list cells)
  | .qexpr cells => .qexpr (lval_copy_list cells)

/-- Copy of every cell of an expression (the `UPTO(x->count)` loop in
`lval_copy`). -/
def lval_copy_list : List lval → List lval
  | [] => []
  | c :: cs => lval_copy c :: lval_copy_list cs

/-- Copy of every binding of an environment frame (the loop in
`lenv_copy`). -/
def frame_copy : Frame → Frame
  | [] => []
  | (s, v) :: rest => (s, lval_copy v) :: frame_copy rest

end

/-- Search one frame for a symbol name (the `UPTO(e->count)`/`strcmp` scan
shared by `lenv_get` and `lenv_put`). -/
def frameGet : Frame → String → Option lval
  | [], _ => none
  | (s, v) :: rest, k => if s = k then some v else frameGet rest k

/-- Lookup, mirroring `lenv_get`: search the innermost frame, then each
parent outward; return a deep copy of the first binding found, or an Error
citing the name once the chain is exhausted. -/
def lenv_get : Chain → String → lval
  | [], k => .err ("Unknown symbol \x27" ++ k ++ "\x27 !")
  | f :: rest, k =>
    match frameGet f k with
    | some v => lval_copy v
    | none => lenv_get rest k

/-- Bind a name in one frame, mirroring the body of `lenv_put`: overwrite
in place if the name is present (storing a deep copy), else append a new
binding (also a deep copy). -/
def frame_put : Frame → String → lval → Frame
  | [], k, v => [(k, lval_copy v)]
  | (s, w) :: rest, k, v =>
    if s = k then (s, lval_copy v) :: rest else (s, w) :: frame_put rest k v

/-- Local binding, mirroring `lenv_put`: bind in the innermost frame only.
An empty chain cannot arise (the C dereferences `e`). -/
def lenv_put : Chain → String → lval → Chain
  | [], _, _ => []
  | f :: rest, k, v => frame_put f k v :: rest

/-- Global binding, mirroring `lenv_global_put`: walk `parent` pointers to
the outermost frame and bind there via `lenv_put`. -/
def lenv_global_put : Chain → String → lval → Chain
  | [], _, _ => []
  | [f], k, v => [frame_put f k v]
  | f :: f2 :: rest, k, v => f :: lenv_global_put (f2 :: rest) k v

/-- Registration of one builtin, mirroring `lenv_add_builtin`. -/
def lenv_add_builtin (e : Chain) (name : String) (b : Builtin) : Chain :=
  lenv_put e name (.builtin b)

/-- Registration of all builtins in source order (`lenv_add_builtins`). -/
def lenv_add_builtins (e : Chain) : Chain :=
  let e1 := lenv_add_builtin e "def" .bDef
  let e2 := lenv_add_builtin e1 "=" .bSet
  let e3 := lenv_add_builtin e2 "fun" .bFun
  let e4 := lenv_add_builtin e3 "list" .bList
  let e5 := lenv_add_builtin e4 "head" .bHead
  let e6 := lenv_add_builtin e5 "tail" .bTail
  let e7 := lenv_add_builtin e6 "eval" .bEval
  let e8 := lenv_add_builtin e7 "join" .bJoin
  let e9 := lenv_add_builtin e8 "+" .bAdd
  let e10 := lenv_add_builtin e9 "-" .bSub
  let e11 := lenv_add_builtin e10 "*" .bMul
  lenv_add_builtin e11 "/" .bDiv

/-- The evaluator's starting environment: one empty global frame
(`lenv_new` in `main`) populated by `lenv_add_builtins`. -/
def initial_chain : Chain := lenv_add_builtins [[]]

/-- The global frame of `initial_chain`, written out. -/
def builtins_frame : Frame :=
  [("def", .builtin .bDef), ("=", .builtin .bSet), ("fun", .builtin .bFun),
   ("list", .builtin .bList), ("head", .builtin .bHead),
   ("tail", .builtin .bTail), ("eval", .builtin .bEval),
   ("join", .builtin .bJoin), ("+", .builtin .bAdd), ("-", .builtin .bSub),
   ("*", .builtin .bMul), ("/", .builtin .bDiv)]

/-- Builtin `head`, mirroring `builtin_head`: exactly one argument, a
non-empty q-expression; returns a q-expression holding only the first
cell.  The three checks fire in source order. -/
def builtin_head (a : List lval) : lval :=
  match a with
  | [q] =>
    match q with
    | .qexpr [] => .err "Function \x27head\x27 passed \x7b\x7d!"
    | .qexpr (c :: _) => .qexpr [c]
    | other =>
        .err ("Function \x27head\x27 passed incorrect type! Got "
          ++ ltype2name other.ltype ++ ", expected Q-Expression.")
  | _ =>
      .err ("Function \x27head\x27 wrong numberof arguments! Got "
        ++ toString a.length ++ ", expected 1.")

/-- Builtin `tail`, mirroring `builtin_tail`: exactly one argument, a
non-empty q-expression; returns it with the first cell removed. -/
def builtin_tail (a : List lval) : lval :=
  match a with
  | [q] =>
    match q with
    | .qexpr [] => .err "Function \x27tail\x27 passed \x7b\x7d!"
    | .qexpr (_ :: rest) => .qexpr rest
    | _ => .err "Function \x27tail\x27 passed incorrect types!"
  | _ => .err "Function \x27tail\x27 passed too many arguments!"

/-- Builtin `join`, mirroring `builtin_join`: every argument must be a
q-expression; the result concatenates all their cells left to right.  (The
C pops the first argument and folds `lval_join` over the rest.) -/
def builtin_join (a : List lval) : lval :=
  match a.find? (fun c => !(lval.isQexpr c)) with
  | some _ => .err "Function \x27join\x27 passed incorrect types!"
  | none => .qexpr (a.map lval.qcells).flatten

/-- Negation of a Number (the `x->num = -x->num` assignment in
`builtin_op`; the argument is a Number whenever the C executes it). -/
def lval_negate : lval → lval
  | .num m => .num (-m)
  | other => other

/-- The accumulation loop of `builtin_op` over the remaining arguments.
Every cell is a Number here (checked before the loop).  Division by zero
aborts the fold with an Error; C `long` division truncates toward zero,
i.e. `Int.tdiv`. -/
def builtin_op_loop (op : String) : lval → List lval → lval
  | x, [] => x
  | x, y :: rest =>
    match x, y with
    | .num xn, .num yn =>
      if op = "+" then builtin_op_loop op (.num (xn + yn)) rest
      else if op = "-" then builtin_op_loop op (.num (xn - yn)) rest
      else if op = "*" then builtin_op_loop op (.num (xn * yn)) rest
      else if op = "/" then
        if yn = 0 then .err "Division by zero!"
        else builtin_op_loop op (.num (Int.tdiv xn yn)) rest
      else builtin_op_loop op x rest
    | _, _ => x

/-- Arithmetic builtins, mirroring `builtin_op`: reject any non-Number
argument, special-case unary minus, then fold the operator left to right.
The evaluator never applies a function to an empty argument list (a group
of one child never applies), so the `[]` case is unreachable; the C would
read `cell[0]` of an empty sequence there. -/
def builtin_op (op : String) (a : List lval) : lval :=
  if a.any (fun c => !(lval.isNum c)) then .err "Cannot operate on non-number"
  else
    match a with
    | [] => .err "Cannot operate on non-number"
    | x :: rest =>
      let x1 := if op = "-" ∧ rest.isEmpty then lval_negate x else x
      builtin_op_loop op x1 rest

/-- Iteration of the binding loop of `builtin_var`: `def` binds each
symbol in the outermost frame via `lenv_global_put`, `=` binds in the
current frame via `lenv_put`. -/
def bindAll (func : String) : Chain → List lval → List lval → Chain
  | e, [], _ => e
  | e, _ :: _, [] => e
  | e, k :: ks, v :: vs2 =>
    let e2 :=
      if func = "def" then lenv_global_put e (lval.symName k) v
      else if func = "=" then lenv_put e (lval.symName k) v
      else e
    bindAll func e2 ks vs2

/-- Builtins `def` and `=`, mirroring `builtin_var`: argument 0 must be a
q-expression of symbols, and the remaining argument count must equal its
length; on success every symbol is bound to its paired value and the
result is the empty s-expression.  The evaluator never applies a builtin
to an empty argument list, so the `[]` case is unreachable (the C reads
`cell[0]` there). -/
def builtin_var (func : String) (e : Chain) (a : List lval) : Chain × lval :=
  match a with
  | [] => (e, .err "unreachable: builtin applied to an empty argument list")
  | syms :: vals =>
    match syms with
    | .qexpr symCells =>
      match symCells.find? (fun s => !(lval.isSym s)) with
      | some bad =>
          (e, .err ("Function \x27" ++ func
            ++ "\x27 cannot define non-symbol! Got "
            ++ ltype2name bad.ltype ++ ", expected Symbol."))
      | none =>
        if symCells.length = vals.length then
          (bindAll func e symCells vals, .sexpr [])
        else
          (e, .err ("Function \x27" ++ func
            ++ "\x27 needs a value for each symbol!"))
    | other =>
        (e, .err ("Function \x27" ++ func
          ++ "\x27 passed incorrect type for argument 0. Got "
          ++ ltype2name other.ltype ++ ", Expected Q-Expression."))

/-- Builtin `fun`, mirroring `builtin_lambda`: exactly two q-expression
arguments, the first holding only symbols; builds a closure with a fresh
empty environment frame. -/
def builtin_lambda (a : List lval) : lval :=
  match a with
  | [f0, f1] =>
    match f0 with
    | .qexpr fcells =>
      match f1 with
      | .qexpr _ =>
        match fcells.find? (fun s => !(lval.isSym s)) with
        | some bad =>
            .err ("Cannot define non-symbol. Got " ++ ltype2name bad.ltype
              ++ ", expected Symbol.")
        | none => .lambda [] fcells f1
      | _ =>
          .err ("Function \x27fun\x27 passed incorrect type for argument 1. Got "
            ++ ltype2name f1.ltype ++ ", Expected Q-Expression.")
    | _ =>
        .err ("Function \x27fun\x27 passed incorrect type for argument 0. Got "
          ++ ltype2name f0.ltype ++ ", Expected Q-Expression.")
  | _ =>
      .err ("Function \x27fun\x27 passed incorrect number of arguments. Got "
        ++ toString a.length ++ ", Expected 2.")

/-- Builtin `eval`, mirroring `builtin_eval`: one q-expression argument,
reinterpreted as an s-expression and evaluated.  `ev` is the evaluator at
the current fuel. -/
def builtin_eval (ev : Chain → lval → Option (Chain × lval)) (e : Chain)
    (a : List lval) : Option (Chain × lval) :=
  match a with
  | [x] =>
    match x with
    | .qexpr cells => ev e (.sexpr cells)
    | _ => some (e, .err "Function \x27eval\x27 passed incorrect types!")
  | _ => some (e, .err "Function \x27eval\x27 passed too many arguments!")

/-- Dispatch of the builtin function pointers installed by
`lenv_add_builtins`. -/
def builtin_apply (ev : Chain → lval → Option (Chain × lval)) (b : Builtin)
    (e : Chain) (a : List lval) : Option (Chain × lval) :=
  match b with
  | .bDef => some (builtin_var "def" e a)
  | .bSet => some (builtin_var "=" e a)
  | .bFun => some (e, builtin_lambda a)
  | .bList => some (e, .qexpr a)
  | .bHead => some (e, builtin_head a)
  | .bTail => some (e, builtin_tail a)
  | .bEval => builtin_eval ev e a
  | .bJoin => some (e, builtin_join a)
  | .bAdd => some (e, builtin_op "+" a)
  | .bSub => some (e, builtin_op "-" a)
  | .bMul => some (e, builtin_op "*" a)
  | .bDiv => some (e, builtin_op "/" a)

/-- The argument-binding loop of `lval_call`: consume one formal and one
argument at a time, binding into the closure's own frame; arguments left
with no formals left is the TooManyArguments error, carrying the original
`given` and `total` counts. -/
def lval_bind (given total : Nat) :
    Frame → List lval → List lval → Except lval (Frame × List lval)
  | fenv, formals, [] => .ok (fenv, formals)
  | _, [], _ :: _ =>
      .error (.err ("Function passed too many arguments. Got "
        ++ toString given ++ ", Expected " ++ toString total ++ "."))
  | fenv, k :: ks, v :: vs2 =>
      lval_bind given total (frame_put fenv (lval.symName k) v) ks vs2

/-- Application, mirroring `lval_call`.  A builtin is invoked directly.
For a closure: bind the supplied arguments; if formals remain, return a
copy of the closure with the partially populated frame (currying); if
none remain, set the closure frame's parent to the caller's chain and
evaluate the body through `builtin_eval`, afterwards dropping the closure
frame (the C frees the closure copy and leaves the caller's `e` in
place).  The last case is unreachable: `lval_eval_sexpr` checks the tag
before calling. -/
def lval_call (ev : Chain → lval → Option (Chain × lval)) (e : Chain)
    (f : lval) (a : List lval) : Option (Chain × lval) :=
  match f with
  | .builtin b => builtin_apply ev b e a
  | .lambda fenv formals body =>
    match lval_bind a.length formals.length fenv formals a with
    | .error errv => some (e, errv)
    | .ok (fenv2, []) =>
      match builtin_eval ev (fenv2 :: e) [body] with
      | none => none
      | some (chain2, r) => some (chain2.tail, r)
    | .ok (fenv2, k :: ks) => some (e, lval_copy (.lambda fenv2 (k :: ks) body))
  | _ => some (e, .err "unreachable: lval_call on a non-function")

/-- Left-to-right evaluation of every child of an s-expression (the first
`UPTO` loop of `lval_eval_sexpr`), threading the environment. -/
def eval_children (ev : Chain → lval → Option (Chain × lval)) :
    Chain → List lval → Option (Chain × List lval)
  | e, [] => some (e, [])
  | e, c :: cs =>
    match ev e c with
    | none => none
    | some (e2, c2) =>
      match eval_children ev e2 cs with
      | none => none
      | some (e3, cs2) => some (e3, c2 :: cs2)

/-- Group evaluation, mirroring `lval_eval_sexpr`: evaluate every child in
order, then return the leftmost Error if any child produced one; an empty
group evaluates to itself; a group of one yields that child; otherwise the
first child must be a Function and is applied to the rest. -/
def lval_eval_sexpr (ev : Chain → lval → Option (Chain × lval)) (e : Chain)
    (cells : List lval) : Option (Chain × lval) :=
  match eval_children ev e cells with
  | none => none
  | some (e2, vs) =>
    match vs.find? lval.isErr with
    | some errv => some (e2, errv)
    | none =>
      match vs with
      | [] => some (e2, .sexpr [])
      | [x] => some (e2, x)
      | f :: args =>
        if f.ltype = .lfun then lval_call ev e2 f args
        else
          some (e2, .err ("S-Expression starts with incorrect type. Got "
            ++ ltype2name f.ltype ++ ", Expected Function."))

/-- Evaluation, mirroring `lval_eval`: a Symbol is looked up (the copy is
what `lenv_get` returns), an S-Expression goes through
`lval_eval_sexpr`, and every other value evaluates to itself.  Fuel is
consumed at each entry; `none` means the fuel ran out. -/
def lval_eval : Nat → Chain → lval → Option (Chain × lval)
  | 0, _, _ => none
  | fuel+1, e, v =>
    match v with
    | .sym s => some (e, lenv_get e s)
    | .sexpr cells => lval_eval_sexpr (lval_eval fuel) e cells
    | other => some (e, other)

/-- The closure built by evaluating `(fun \x7ba b\x7d \x7b+ a b\x7d)`. -/
def add_closure : lval :=
  .lambda [] [.sym "a", .sym "b"] (.qexpr [.sym "+", .sym "a", .sym "b"])

/-- The environment after `(def \x7badd\x7d (fun \x7ba b\x7d \x7b+ a b\x7d))`
at top level. -/
def env_with_add : Chain := [builtins_frame ++ [("add", add_closure)]]

mutual

/-- Deep copy is the identity on the pure value tree. -/
theorem lval_copy_id : (v : lval) → lval_copy v = v
  | .num _ => rfl
  | .builtin _ => rfl
  | .lambda fenv formals body => by
      rw [lval_copy, frame_copy_id fenv, lval_copy_list_id formals,
        lval_copy_id body]
  | .err _ => rfl
  | .sym _ => rfl
  | .sexpr cells => by rw [lval_copy, lval_copy_list_id cells]
  | .qexpr cells => by rw [lval_copy, lval_copy_list_id cells]

/-- Cell-wise deep copy is the identity. -/
theorem lval_copy_list_id : (l : List lval) → lval_copy_list l = l
  | [] => rfl
  | c :: cs => by rw [lval_copy_list, lval_copy_id c, lval_copy_list_id cs]

/-- Frame deep copy is the identity. -/
theorem frame_copy_id : (f : Frame) → frame_copy f = f
  | [] => rfl
  | (s, v) :: rest => by rw [frame_copy, lval_copy_id v, frame_copy_id rest]

end

/-- The initial chain is exactly one global frame holding the builtins in
registration order. -/
theorem initial_chain_eq : initial_chain = [builtins_frame] := rfl

/-- Binding a name and looking it up in the same frame yields (a copy of)
the stored copy. -/
theorem frameGet_frame_put (f : Frame) (k : String) (w : lval) :
    frameGet (frame_put f k w) k = some (lval_copy w) := by
  induction f with
  | nil => simp [frame_put, frameGet]
  | cons p rest ih =>
    obtain ⟨s, v⟩ := p
    by_cases h : s = k
    · simp [frame_put, frameGet, h]
    · simp [frame_put, frameGet, h, ih]

/-- The global put walks past every inner frame and binds in the last
(outermost) one. -/
theorem lenv_global_put_last :
    ∀ (fs : List Frame) (g : Frame) (k : String) (v : lval),
      lenv_global_put (fs ++ [g]) k v = fs ++ [frame_put g k v]
  | [], _, _, _ => rfl
  | _ :: fs, g, k, v => by
    cases fs with
    | nil => rfl
    | cons f2 fs2 =>
      exact congrArg (List.cons _) (lenv_global_put_last (f2 :: fs2) g k v)


/-- C1: for every evaluated group (s-expression), the evaluator first
evaluates every child left to right (threading all environment effects,
even those of children that come after an Error), and if any evaluated
child is an Error, the leftmost such Error becomes the group's result: the
sibling results are discarded and no function application takes place. -/
theorem C1_group_error_propagation (fuel : Nat) (e e2 : Chain)
    (cells vs : List lval) (errv : lval)
    (_hlen : 2 ≤ cells.length)
    (hev : eval_children (lval_eval fuel) e cells = some (e2, vs))
    (herr : vs.find? lval.isErr = some errv) :
    lval_eval (fuel+1) e (.sexpr cells) = some (e2, errv) := by
  simp [lval_eval, lval_eval_sexpr, hev, herr]

/-- Witness for C1: in `((/ 1 0) (def \x7bx\x7d 5))` the first child
errors, yet the second child is still evaluated (the resulting chain has
`x` bound in the global frame) and the division Error becomes the group's
result. -/
theorem C1_witness :
    lval_eval 3 initial_chain
      (.sexpr [.sexpr [.sym "/", .num 1, .num 0],
        .sexpr [.sym "def", .qexpr [.sym "x"], .num 5]])
      = some ([builtins_frame ++ [("x", .num 5)]], .err "Division by zero!") :=
  C1_group_error_propagation 2 initial_chain
    [builtins_frame ++ [("x", lval.num 5)]]
    [lval.sexpr [lval.sym "/", lval.num 1, lval.num 0],
     lval.sexpr [lval.sym "def", lval.qexpr [lval.sym "x"], lval.num 5]]
    [lval.err "Division by zero!", lval.sexpr []]
    (lval.err "Division by zero!")
    (by decide) rfl rfl

/-- C2 counterexample: in `(def \x7badd\x7d (fun \x7ba b\x7d (+ a b)))`
the body `(+ a b)` is an unquoted s-expression, so it is evaluated before
`fun` is ever applied and produces `Unknown symbol 'a' !`; no closure is
bound, the environment is unchanged, and a subsequent `(add 1 2)` fails
with an unknown-symbol Error instead of yielding 3. -/
theorem C2_counterexample :
    lval_eval 10 initial_chain
      (.sexpr [.sym "def", .qexpr [.sym "add"],
        .sexpr [.sym "fun", .qexpr [.sym "a", .sym "b"],
          .sexpr [.sym "+", .sym "a", .sym "b"]]])
      = some (initial_chain, .err "Unknown symbol \x27a\x27 !")
    ∧ lval_eval 10 initial_chain (.sexpr [.sym "add", .num 1, .num 2])
      = some (initial_chain, .err "Unknown symbol \x27add\x27 !") :=
  ⟨rfl, rfl⟩

/-- C2 (amended): for the closure bound by evaluating
`(def \x7badd\x7d (fun \x7ba b\x7d \x7b+ a b\x7d))` (the body must be a
quoted expression), `(add 1 2)` and `((add 1) 2)` both evaluate to the
Number 3; calling with fewer arguments returns a copy of the closure with
the remaining formals pending (here `(add 1)` yields a closure with `a`
bound and formal `b` pending); and `(add 1 2 3)` yields the
too-many-arguments Error carrying the given count 3 and the total formal
count 2. -/
theorem C2_partial_application :
    lval_eval 10 initial_chain
      (.sexpr [.sym "def", .qexpr [.sym "add"],
        .sexpr [.sym "fun", .qexpr [.sym "a", .sym "b"],
          .qexpr [.sym "+", .sym "a", .sym "b"]]])
      = some (env_with_add, .sexpr [])
    ∧ lval_eval 10 env_with_add (.sexpr [.sym "add", .num 1, .num 2])
      = some (env_with_add, .num 3)
    ∧ lval_eval 10 env_with_add (.sexpr [.sexpr [.sym "add", .num 1], .num 2])
      = some (env_with_add, .num 3)
    ∧ lval_eval 10 env_with_add (.sexpr [.sym "add", .num 1])
      = some (env_with_add,
          .lambda [("a", .num 1)] [.sym "b"]
            (.qexpr [.sym "+", .sym "a", .sym "b"]))
    ∧ lval_eval 10 env_with_add (.sexpr [.sym "add", .num 1, .num 2, .num 3])
      = some (env_with_add,
          .err "Function passed too many arguments. Got 3, Expected 2.") :=
  ⟨rfl, rfl, rfl, rfl, rfl⟩

/-- C3: `def` binds in the outermost (global) frame, found by walking
parent references to the end of the chain, so a `(def \x7bx\x7d 5)` run
inside a closure call is visible afterwards from any scope sharing that
global frame; `=` binds in the frame current at the call, so a
`(= \x7bx\x7d 5)` inside a closure call leaves the global frame untouched
and `x` stays unbound there. -/
theorem C3_def_global_set_local :
    (∀ (fs : List Frame) (g : Frame) (k : String) (v : lval),
        lenv_global_put (fs ++ [g]) k v = fs ++ [frame_put g k v])
    ∧ (∀ (f : Frame) (rest : Chain) (k : String) (v : lval),
        lenv_put (f :: rest) k v = frame_put f k v :: rest)
    ∧ lval_eval 10 initial_chain
        (.sexpr [.sexpr [.sym "fun", .qexpr [.sym "a"],
            .qexpr [.sym "def", .qexpr [.sym "x"], .num 5]], .num 0])
        = some ([builtins_frame ++ [("x", .num 5)]], .sexpr [])
    ∧ lenv_get [builtins_frame ++ [("x", .num 5)]] "x" = .num 5
    ∧ lval_eval 10 initial_chain
        (.sexpr [.sexpr [.sym "fun", .qexpr [.sym "a"],
            .qexpr [.sym "=", .qexpr [.sym "x"], .num 5]], .num 0])
        = some (initial_chain, .sexpr [])
    ∧ lenv_get initial_chain "x" = .err "Unknown symbol \x27x\x27 !" :=
  ⟨lenv_global_put_last, fun _ _ _ _ => rfl, rfl, rfl, rfl, rfl⟩

/-- C4: for integers a and b with b nonzero, `(/ a b)` evaluates to the
Number `Int.tdiv a b`, the quotient truncated toward zero (witnessed by
`(/ -7 2)` giving -3, not the floor -4); for every a, `(/ a 0)` evaluates
to the division-by-zero Error value, never a fault (the evaluator is a
total function). -/
theorem C4_division (a b : Int) :
    (b ≠ 0 →
      lval_eval 2 initial_chain (.sexpr [.sym "/", .num a, .num b])
        = some (initial_chain, .num (Int.tdiv a b)))
    ∧ lval_eval 2 initial_chain (.sexpr [.sym "/", .num a, .num 0])
        = some (initial_chain, .err "Division by zero!")
    ∧ lval_eval 2 initial_chain (.sexpr [.sym "/", .num (-7), .num 2])
        = some (initial_chain, .num (-3)) := by
  refine ⟨fun h => ?_, rfl, rfl⟩
  have base : lval_eval 2 initial_chain (.sexpr [.sym "/", .num a, .num b])
      = some (initial_chain, builtin_op "/" [.num a, .num b]) := rfl
  have base2 : builtin_op "/" [.num a, .num b]
      = if b = 0 then .err "Division by zero!" else .num (Int.tdiv a b) := rfl
  rw [base, base2, if_neg h]

/-- Witness for C4 at a = 7, b = 2. -/
theorem C4_witness :
    lval_eval 2 initial_chain (.sexpr [.sym "/", .num 7, .num 2])
      = some (initial_chain, .num 3) :=
  (C4_division 7 2).1 (by decide)

/-- C5: lookup searches the current frame first, then the parents outward,
returning a deep copy of the nearest binding, and an Error citing the
unresolved name when the chain is exhausted; rebinding via `lenv_put`
changes what a later lookup returns, while the value an earlier lookup
returned is a full copy (`lval_copy`, provably a fresh value equal to the
binding), so in this pure embedding it cannot be changed by any later
rebinding. -/
theorem C5_lookup (k : String) :
    (∀ (f : Frame) (rest : Chain) (v : lval),
        frameGet f k = some v → lenv_get (f :: rest) k = lval_copy v)
    ∧ (∀ (f : Frame) (rest : Chain),
        frameGet f k = none → lenv_get (f :: rest) k = lenv_get rest k)
    ∧ lenv_get [] k = .err ("Unknown symbol \x27" ++ k ++ "\x27 !")
    ∧ (∀ (f : Frame) (rest : Chain) (w : lval),
        lenv_get (lenv_put (f :: rest) k w) k = w)
    ∧ (∀ v : lval, lval_copy v = v) := by
  refine ⟨?_, ?_, rfl, ?_, lval_copy_id⟩
  · intro f rest v h
    simp [lenv_get, h]
  · intro f rest h
    simp [lenv_get, h]
  · intro f rest w
    simp [lenv_put, lenv_get, frameGet_frame_put, lval_copy_id]

/-- Witness for C5: lookup of a bound name returns the copy, and after a
rebinding the new lookup sees the new value. -/
theorem C5_witness :
    lenv_get [[("x", lval.num 7)]] "x" = lval_copy (lval.num 7)
    ∧ lenv_get (lenv_put [[("x", lval.num 7)]] "x" (lval.num 8)) "x"
        = lval.num 8 :=
  ⟨(C5_lookup "x").1 [("x", lval.num 7)] [] (lval.num 7) rfl,
   (C5_lookup "x").2.2.2.1 [("x", lval.num 7)] [] (lval.num 8)⟩

/-- C6: `(head \x7b\x7d)` and `(tail \x7b\x7d)` each evaluate to an Error
(the non-empty precondition fails); on every non-empty quoted list, head
keeps only the first element and tail drops it, so
`(head \x7b1 2 3\x7d)` gives `\x7b1\x7d` and `(tail \x7b1 2 3\x7d)` gives
`\x7b2 3\x7d`. -/
theorem C6_head_tail :
    lval_eval 2 initial_chain (.sexpr [.sym "head", .qexpr []])
      = some (initial_chain, .err "Function \x27head\x27 passed \x7b\x7d!")
    ∧ lval_eval 2 initial_chain (.sexpr [.sym "tail", .qexpr []])
      = some (initial_chain, .err "Function \x27tail\x27 passed \x7b\x7d!")
    ∧ lval_eval 2 initial_chain
        (.sexpr [.sym "head", .qexpr [.num 1, .num 2, .num 3]])
      = some (initial_chain, .qexpr [.num 1])
    ∧ lval_eval 2 initial_chain
        (.sexpr [.sym "tail", .qexpr [.num 1, .num 2, .num 3]])
      = some (initial_chain, .qexpr [.num 2, .num 3])
    ∧ (∀ (c : lval) (rest : List lval),
        builtin_head [.qexpr (c :: rest)] = .qexpr [c])
    ∧ (∀ (c : lval) (rest : List lval),
        builtin_tail [.qexpr (c :: rest)] = .qexpr rest) :=
  ⟨rfl, rfl, rfl, rfl, fun _ _ => rfl, fun _ _ => rfl⟩

/-- C7 counterexample: the type failure of the arithmetic builtins is the
fixed message `Cannot operate on non-number`, which carries neither the
function name (no `+` occurs in it) nor the offending index (no digit
occurs in it) nor the actual/expected kinds, refuting the claim that every
arity/type failure carries all of these. -/
theorem C7_counterexample :
    lval_eval 2 initial_chain (.sexpr [.sym "+", .qexpr []])
      = some (initial_chain, .err "Cannot operate on non-number")
    ∧ ("Cannot operate on non-number".toList.contains '+') = false
    ∧ "Cannot operate on non-number".toList.all (fun ch => !(ch.isDigit))
        = true :=
  ⟨rfl, by decide, by decide⟩

/-- C7 (amended): every arity/type precondition failure still produces a
first-class Error value, never a fault; the checks that go through the
LASSERT_TYPE/LASSERT_NUM macros (such as `def`/`=` argument 0, or the
argument count of `fun`) carry the function name, index, actual kind and
expected kind or count, but the arithmetic builtins report the fixed
message `Cannot operate on non-number` and `tail`/`join` use fixed
messages without index or kinds. -/
theorem C7_error_values :
    (∀ (op : String) (a : List lval),
        a.any (fun c => !(lval.isNum c)) = true →
        builtin_op op a = .err "Cannot operate on non-number")
    ∧ (∀ (a : List lval) (q : lval),
        a.find? (fun c => !(lval.isQexpr c)) = some q →
        builtin_join a = .err "Function \x27join\x27 passed incorrect types!")
    ∧ (∀ a : List lval, a.length ≠ 1 →
        builtin_tail a
          = .err "Function \x27tail\x27 passed too many arguments!")
    ∧ (∀ v : lval, lval.isQexpr v = false →
        builtin_tail [v]
          = .err "Function \x27tail\x27 passed incorrect types!")
    ∧ (∀ (func : String) (e : Chain) (v : lval) (rest : List lval),
        lval.isQexpr v = false →
        builtin_var func e (v :: rest)
          = (e, .err ("Function \x27" ++ func
              ++ "\x27 passed incorrect type for argument 0. Got "
              ++ ltype2name v.ltype ++ ", Expected Q-Expression.")))
    ∧ (∀ a : List lval, a.length ≠ 2 →
        builtin_lambda a
          = .err ("Function \x27fun\x27 passed incorrect number of arguments. Got "
              ++ toString a.length ++ ", Expected 2.")) := by
  refine ⟨?_, ?_, ?_, ?_, ?_, ?_⟩
  · intro op a h
    simp [builtin_op, h]
  · intro a q h
    simp [builtin_join, h]
  · intro a h
    cases a with
    | nil => rfl
    | cons x t =>
      cases t with
      | nil => exact absurd rfl h
      | cons y t2 => rfl
  · intro v h
    cases v <;> first | rfl | simp [lval.isQexpr] at h
  · intro func e v rest h
    cases v <;> first | rfl | simp [lval.isQexpr] at h
  · intro a h
    cases a with
    | nil => rfl
    | cons x t =>
      cases t with
      | nil => rfl
      | cons y t2 =>
        cases t2 with
        | nil => exact absurd rfl h
        | cons z t3 => rfl

/-- Witness for C7 (amended) at concrete violating inputs. -/
theorem C7_witness :
    builtin_op "+" [lval.qexpr []] = .err "Cannot operate on non-number"
    ∧ builtin_tail [lval.num 0, lval.num 1]
        = .err "Function \x27tail\x27 passed too many arguments!"
    ∧ builtin_var "def" [[]] [lval.num 3]
        = ([[]], .err ("Function \x27def\x27 passed incorrect type for argument 0. Got Number, Expected Q-Expression.")) :=
  ⟨C7_error_values.1 "+" [lval.qexpr []] rfl,
   C7_error_values.2.2.1 [lval.num 0, lval.num 1] (by decide),
   C7_error_values.2.2.2.2.1 "def" [[]] (lval.num 3) [] rfl⟩

/-- C8: Numbers, Errors, Functions (builtins and closures) and quoted
lists evaluate to themselves unchanged; a Symbol evaluates to the lookup
of its name in the current environment; an empty evaluated group
evaluates to itself; and a group of one child evaluates to the result of
evaluating that child. -/
theorem C8_eval_base_cases :
    (∀ (fuel : Nat) (e : Chain) (n : Int),
        lval_eval (fuel+1) e (.num n) = some (e, .num n))
    ∧ (∀ (fuel : Nat) (e : Chain) (m : String),
        lval_eval (fuel+1) e (.err m) = some (e, .err m))
    ∧ (∀ (fuel : Nat) (e : Chain) (b : Builtin),
        lval_eval (fuel+1) e (.builtin b) = some (e, .builtin b))
    ∧ (∀ (fuel : Nat) (e : Chain) (fenv : Frame) (formals : List lval)
        (body : lval),
        lval_eval (fuel+1) e (.lambda fenv formals body)
          = some (e, .lambda fenv formals body))
    ∧ (∀ (fuel : Nat) (e : Chain) (cells : List lval),
        lval_eval (fuel+1) e (.qexpr cells) = some (e, .qexpr cells))
    ∧ (∀ (fuel : Nat) (e : Chain) (s : String),
        lval_eval (fuel+1) e (.sym s) = some (e, lenv_get e s))
    ∧ (∀ (fuel : Nat) (e : Chain),
        lval_eval (fuel+1) e (.sexpr []) = some (e, .sexpr []))
    ∧ (∀ (fuel : Nat) (e : Chain) (x : lval),
        lval_eval (fuel+1) e (.sexpr [x]) = lval_eval fuel e x) := by
  refine ⟨fun _fu _e _n => rfl, fun _fu _e _m => rfl, fun _fu _e _b => rfl,
    fun _fu _e _fv _fo _bd => rfl, fun _fu _e _cs => rfl,
    fun _fu _e _s => rfl, fun _fu _e => rfl, ?_⟩
  intro fuel e x
  cases h : lval_eval fuel e x with
  | none => simp [lval_eval, lval_eval_sexpr, eval_children, h]
  | some p =>
    obtain ⟨e2, x2⟩ := p
    cases hx : lval.isErr x2 <;>
      simp [lval_eval, lval_eval_sexpr, eval_children, h, List.find?, hx]

/-- C9: applied to a single Number, `+`, `*` and `/` act as the identity
(the fold loop has nothing to consume and only `-` has a unary special
case), so unary `/` performs no division and cannot raise the
division-by-zero Error, while unary `-` negates its argument. -/
theorem C9_unary_arithmetic (n : Int) :
    builtin_op "+" [.num n] = .num n
    ∧ builtin_op "*" [.num n] = .num n
    ∧ builtin_op "/" [.num n] = .num n
    ∧ builtin_op "-" [.num n] = .num (-n)
    ∧ lval_eval 2 initial_chain (.sexpr [.sym "+", .num n])
        = some (initial_chain, .num n)
    ∧ lval_eval 2 initial_chain (.sexpr [.sym "*", .num n])
        = some (initial_chain, .num n)
    ∧ lval_eval 2 initial_chain (.sexpr [.sym "/", .num n])
        = some (initial_chain, .num n)
    ∧ lval_eval 2 initial_chain (.sexpr [.sym "-", .num n])
        = some (initial_chain, .num (-n)) :=
  ⟨rfl, rfl, rfl, rfl, rfl, rfl, rfl, rfl⟩

/-- C10: whenever `def` or `=` succeeds (argument 0 is a quoted list of
symbols and the remaining argument count equals its length), the result
value is the empty evaluated group `()`, not one of the bound values. -/
theorem C10_define_returns_empty_group (func : String) (e : Chain)
    (symCells vals : List lval)
    (hsym : symCells.find? (fun s => !(lval.isSym s)) = none)
    (hlen : symCells.length = vals.length) :
    (builtin_var func e (.qexpr symCells :: vals)).2 = .sexpr [] := by
  simp [builtin_var, hsym, hlen]

/-- Witness for C10 for both `def` and `=` at a concrete binding. -/
theorem C10_witness :
    (builtin_var "def" [[]] [.qexpr [.sym "x"], .num 1]).2 = .sexpr []
    ∧ (builtin_var "=" [[]] [.qexpr [.sym "x"], .num 1]).2 = .sexpr [] :=
  ⟨C10_define_returns_empty_group "def" [[]] [.sym "x"] [.num 1] rfl rfl,
   C10_define_returns_empty_group "=" [[]] [.sym "x"] [.num 1] rfl rfl⟩
